import Mathlib

set_option maxRecDepth 100000

/-!
Verification of the agent-notebook documentation of the langchain repository.

The two notebooks (`docs/getting_started/agents.ipynb` and
`docs/examples/memory/agent_with_memory.ipynb`) exercise the framework's
agent machinery: a `Tool` record, an agent loop that calls an LLM, parses
its output for an Action / Action Input pair or a Final Answer, dispatches
to the named tool and feeds the observation back into the prompt, and an
optional conversation-buffer memory carried through an `LLMChain`.  The
loop, prompt-template and memory implementations themselves are not part of
the supplied files, so they are modelled here from the specification's
description of them; the `Tool` record, the notebook tool lists, prompt
strings and the recorded transcripts are embedded from the notebooks
directly.  The LLM and the hosted search API are external services and are
modelled as oracles (`String → String` parameters).
-/

/-- The opening-brace character of a template placeholder. -/
def lbrace : Char := Char.ofNat 123

/-- The closing-brace character of a template placeholder. -/
def rbrace : Char := Char.ofNat 125

/-- The ANSI escape character that terminates coloured transcript text. -/
def esc : Char := Char.ofNat 27

/-- Whether `pat` occurs at the head of `s`, character by character. -/
def startsWithPat : List Char → List Char → Bool
  | [], _ => true
  | _ :: _, [] => false
  | p :: ps, c :: cs => p = c && startsWithPat ps cs

/-- The characters following the first occurrence of `pat` in `s`, or `none`
when `pat` does not occur in `s`. -/
def afterPat (pat : List Char) : List Char → Option (List Char)
  | [] => if startsWithPat pat [] then some [] else none
  | c :: cs =>
    if startsWithPat pat (c :: cs) then some ((c :: cs).drop pat.length)
    else afterPat pat cs

/-- The characters of `s` up to (excluding) the first occurrence of `stop`. -/
def takeUntilChar (stop : Char) : List Char → List Char
  | [] => []
  | c :: cs => if c = stop then [] else c :: takeUntilChar stop cs

/-- Drops the run of blanks at the head of `s`. -/
def dropLeadingSpaces : List Char → List Char
  | ' ' :: cs => dropLeadingSpaces cs
  | cs => cs

/-- The `Tool` interface, as quoted in `docs/getting_started/agents.ipynb`:
`class Tool(NamedTuple): name: str; func: Callable[[str], str];
description: Optional[str] = None`. -/
structure Tool where
  name : String
  func : String → String
  description : Option String := none

/-- One piece of a prompt template: literal text or a `\x7bvariable\x7d`
placeholder. -/
inductive TemplatePart where
  | lit (text : String)
  | var (v : String)
deriving DecidableEq

/-- The worker behind `parseTemplate`: `inVar` says whether we are inside a
`\x7b...\x7d` placeholder, `acc` holds the characters of the current literal
or variable name in reverse. -/
def parseTemplateAux : Bool → List Char → List Char → List TemplatePart
  | false, acc, [] =>
    if acc.isEmpty then [] else [TemplatePart.lit (String.mk acc.reverse)]
  | false, acc, c :: cs =>
    if c = lbrace then
      (if acc.isEmpty then [] else [TemplatePart.lit (String.mk acc.reverse)]) ++
        parseTemplateAux true [] cs
    else parseTemplateAux false (c :: acc) cs
  | true, acc, [] => [TemplatePart.var (String.mk acc.reverse)]
  | true, acc, c :: cs =>
    if c = rbrace then
      TemplatePart.var (String.mk acc.reverse) :: parseTemplateAux false [] cs
    else parseTemplateAux true (c :: acc) cs

/-- Modelled from the spec: the f-string prompt-template syntax used by the
framework's `PromptTemplate` (not among the supplied files) — literal text
interleaved with `\x7bname\x7d` placeholders naming input variables. -/
def parseTemplate (s : List Char) : List TemplatePart :=
  parseTemplateAux false [] s

/-- The variables a template interpolates, in order of appearance. -/
def templateVars : List TemplatePart → List String
  | [] => []
  | TemplatePart.lit _ :: rest => templateVars rest
  | TemplatePart.var v :: rest => v :: templateVars rest

/-- Renders a template, replacing each placeholder by what `binding`
assigns to its variable. -/
def formatTemplate (binding : String → String) : List TemplatePart → String
  | [] => ""
  | TemplatePart.lit s :: rest => s ++ formatTemplate binding rest
  | TemplatePart.var v :: rest => binding v ++ formatTemplate binding rest

/-- The structured reading of one LLM completion: either an action naming a
tool with its input, or a final answer. -/
inductive LLMOutput where
  | act (action : String) (actionInput : String)
  | finish (finalAnswer : String)
deriving DecidableEq

/-- Modelled from the spec: the framework's output parser (not among the
supplied files) — it scans the LLM text for a Final Answer and otherwise for
an Action / Action Input pair, per the spec sentence "parse its text output
for an Action/Action Input pattern … repeat until a Final Answer is
produced". -/
def parseOutput (text : String) : Option LLMOutput :=
  match afterPat "Final Answer:".data text.data with
  | some rest => some (LLMOutput.finish (String.mk (dropLeadingSpaces rest)))
  | none =>
    match afterPat "Action:".data text.data with
    | some restAction =>
      match afterPat "Action Input:".data restAction with
      | some restInput =>
        some (LLMOutput.act
          (String.mk (takeUntilChar '\n' (dropLeadingSpaces restAction)))
          (String.mk (dropLeadingSpaces restInput)))
      | none => none
    | none => none

/-- Modelled from the spec: how the loop "feed[s] the observation back into
the prompt" — the LLM text and the tool's observation are appended to the
running prompt. -/
def nextPrompt (prompt output observation : String) : String :=
  prompt ++ output ++ "\nObservation: " ++ observation ++ "\nThought:"

/-- The first tool of the list bearing the given name. -/
def lookupTool (tools : List Tool) (toolName : String) : Option Tool :=
  tools.find? (fun t => t.name == toolName)

/-- What one call of the agent loop did: the final answer (if one was
reached), the tool names invoked in order, and every prompt sent to the
LLM. -/
structure RunResult where
  answer : Option String
  toolsUsed : List String
  promptsSent : List String
deriving DecidableEq

/-- Modelled from the spec: the agent loop behind `agent.run` (not among the
supplied files) — "construct a prompt template, call an external LLM API,
parse its text output for an Action/Action Input pattern, dispatch to a
named tool function, feed the observation back into the prompt, and repeat
until a Final Answer is produced".  The LLM is the oracle; `fuel` bounds the
iteration so the function is total. -/
def agentRun (oracle : String → String) (tools : List Tool) :
    Nat → String → RunResult
  | 0, _ => { answer := none, toolsUsed := [], promptsSent := [] }
  | fuel + 1, prompt =>
    let out := oracle prompt
    match parseOutput out with
    | some (LLMOutput.finish a) =>
      { answer := some a, toolsUsed := [], promptsSent := [prompt] }
    | some (LLMOutput.act toolName input) =>
      match lookupTool tools toolName with
      | some t =>
        let r := agentRun oracle tools fuel (nextPrompt prompt out (t.func input))
        { answer := r.answer
          toolsUsed := toolName :: r.toolsUsed
          promptsSent := prompt :: r.promptsSent }
      | none => { answer := none, toolsUsed := [], promptsSent := [prompt] }
    | none => { answer := none, toolsUsed := [], promptsSent := [prompt] }

/-- The spec's description of the loop as a step relation: from a prompt the
agent reaches answer `ans` either because the LLM output at that prompt
parses as a Final Answer `ans`, or because it parses as an Action / Action
Input pair naming a tool of the list, whose observation is appended to the
prompt, from which `ans` is then reached. -/
inductive AgentReaches (oracle : String → String) (tools : List Tool) :
    String → String → Prop where
  | finish {prompt ans} :
      parseOutput (oracle prompt) = some (LLMOutput.finish ans) →
      AgentReaches oracle tools prompt ans
  | step {prompt toolName input t ans} :
      parseOutput (oracle prompt) = some (LLMOutput.act toolName input) →
      lookupTool tools toolName = some t →
      AgentReaches oracle tools
        (nextPrompt prompt (oracle prompt) (t.func input)) ans →
      AgentReaches oracle tools prompt ans

/-- One conversation turn: the human's query and the AI's answer. -/
abbrev Turn := String × String

/-- Modelled from the spec: how `ConversationBufferMemory` renders one prior
turn into prompt text, as a Human:/AI: line pair. -/
def renderTurn (t : Turn) : String :=
  "Human: " ++ t.1 ++ "\nAI: " ++ t.2 ++ "\n"

/-- The rendering of a whole conversation buffer, oldest turn first. -/
def renderBuffer : List Turn → String
  | [] => ""
  | t :: rest => renderTurn t ++ renderBuffer rest

/-- Modelled from the spec: `ConversationBufferMemory` (not among the
supplied files) — "a mechanism for carrying prior conversation turns into
subsequent prompts"; it holds the prior turns and exposes their rendering
under its `memory_key` prompt variable. -/
structure ConversationBufferMemory where
  memory_key : String
  buffer : List Turn := []
deriving DecidableEq

/-- Modelled from the spec: the `LLMChain` configuration the notebooks
build — a prompt template plus an optional `ConversationBufferMemory`. -/
structure LLMChain where
  template : List TemplatePart
  memory : Option ConversationBufferMemory := none
deriving DecidableEq

/-- The value each template variable receives when the chain formats its
prompt for query `q`: the memory's key (when a memory is attached) receives
the rendered buffer, and `input` receives the query. -/
def promptBinding (c : LLMChain) (q : String) : String → String :=
  fun v =>
    match c.memory with
    | some m =>
      if v = m.memory_key then renderBuffer m.buffer
      else if v = "input" then q else ""
    | none => if v = "input" then q else ""

/-- The prompt the chain sends for query `q` before any agent scratchpad is
appended. -/
def basePrompt (c : LLMChain) (q : String) : String :=
  formatTemplate (promptBinding c q) c.template

/-- Modelled from the spec: after a run, a chain with memory records the
completed (query, answer) turn; a chain without memory is unchanged. -/
def saveContext (c : LLMChain) (q a : String) : LLMChain :=
  match c.memory with
  | some m => { c with memory := some { m with buffer := m.buffer ++ [(q, a)] } }
  | none => c

/-- Modelled from the spec: `agent.run` for an agent built on an `LLMChain` —
the chain formats the base prompt (interpolating the memory buffer when one
is attached), the agent loop runs from that prompt, and on success the
memory records the new turn. -/
def chainAgentRun (oracle : String → String) (tools : List Tool) (fuel : Nat)
    (c : LLMChain) (q : String) : RunResult × LLMChain :=
  match (agentRun oracle tools fuel (basePrompt c q)).answer with
  | some a => (agentRun oracle tools fuel (basePrompt c q), saveContext c q a)
  | none => (agentRun oracle tools fuel (basePrompt c q), c)

/-- Runs a sequence of queries through the agent, threading the chain (and
so its memory) from each run into the next. -/
def runQueries (oracle : String → String) (tools : List Tool) (fuel : Nat) :
    LLMChain → List String → List RunResult
  | _, [] => []
  | c, q :: qs =>
    (chainAgentRun oracle tools fuel c q).1 ::
      runQueries oracle tools fuel (chainAgentRun oracle tools fuel c q).2 qs

/-- The Search tool's description string, from both notebooks. -/
def searchDesc : String :=
  "useful for when you need to answer questions about current events"

/-- The Calculator tool's description string, from the getting-started
notebook. -/
def calcDesc : String :=
  "useful for when you need to answer questions about math"

/-- The tool list of `docs/getting_started/agents.ipynb`: Search (backed by
`search.run`) and Calculator (backed by `llm_math_chain.run`); the two
hosted backends are oracle parameters. -/
def gettingStartedTools (searchRun calcRun : String → String) : List Tool :=
  [{ name := "Search", func := searchRun, description := some searchDesc },
   { name := "Calculator", func := calcRun, description := some calcDesc }]

/-- The tool list of `docs/examples/memory/agent_with_memory.ipynb`: Search
only. -/
def memoryNotebookTools (searchRun : String → String) : List Tool :=
  [{ name := "Search", func := searchRun, description := some searchDesc }]

/-- The memory notebook's prompt `prefix` string. -/
def memPromptHead : String :=
  "Have a conversation with a human, answering the following questions as best you can. You have access to the following tools:"

/-- The memory notebook's prompt `suffix` string for the agent with memory,
with its `chat_history` and `input` placeholders. -/
def memPromptTailWithHistory : String :=
  "Begin!\"\n\n{chat_history}\nQuestion: {input}"

/-- The memory notebook's prompt `suffix` string for the agent without
memory: no `chat_history` placeholder. -/
def promptTailNoHistory : String :=
  "Begin!\"\n\nQuestion: {input}"

/-- Modelled from the spec: `ZeroShotAgent.create_prompt` (not among the
supplied files) — "construct a prompt template": the prefix text, one
`name: description` line per tool, and the suffix are joined into one
template string. -/
def createPrompt (tools : List Tool) (head tail : String) : String :=
  head ++ "\n\n" ++
    String.join (tools.map (fun t => t.name ++ ": " ++ t.description.getD "" ++ "\n")) ++
    "\n" ++ tail

/-- The `ConversationBufferMemory(memory_key="chat_history")` instance of the
memory notebook. -/
def memoryNB : ConversationBufferMemory := { memory_key := "chat_history" }

/-- The parsed prompt template of the memory notebook's agent with memory. -/
def memoryTemplate (searchRun : String → String) : List TemplatePart :=
  parseTemplate
    (createPrompt (memoryNotebookTools searchRun) memPromptHead memPromptTailWithHistory).data

/-- The memory notebook's chain with memory, at an arbitrary point of the
conversation: buffer `b` holds the turns completed so far. -/
def memoryChainWith (searchRun : String → String) (b : List Turn) : LLMChain :=
  { template := memoryTemplate searchRun
    memory := some { memory_key := memoryNB.memory_key, buffer := b } }

/-- The memory notebook's chain for `agent_without_memory`: same tools and
prompt text but no `chat_history` placeholder and no memory attached. -/
def noMemoryChain (searchRun : String → String) : LLMChain :=
  { template := parseTemplate
      (createPrompt (memoryNotebookTools searchRun) memPromptHead promptTailNoHistory).data
    memory := none }

/-- The `input_variables` list passed to `create_prompt` for the agent with
memory. -/
def memoryInputVariables : List String := ["input", "chat_history"]

/-- The literal text that precedes the interpolated conversation history in
the memory notebook's prompt: prefix, the Search tool's description line,
and the start of the suffix. -/
def memLitA : String :=
  "Have a conversation with a human, answering the following questions as best you can. You have access to the following tools:\n\nSearch: useful for when you need to answer questions about current events\n\nBegin!\"\n\n"

/-- A concrete demonstration oracle: it requests the Search tool once and
finishes as soon as an observation is present in the prompt. -/
def demoOracle : String → String := fun p =>
  if (afterPat "Observation:".data p.data).isSome then "Final Answer: done"
  else "Action: Search\nAction Input: canada"

/-- The memory notebook's tool list over a stub search backend, for
concrete evaluation. -/
def demoTools : List Tool := memoryNotebookTools (fun _ => "obs")

/-- The text a transcript records as returned: what follows the first
`Final Answer:` marker, without the separating blank, up to the ANSI escape
that ends the coloured region (or the end of the text). -/
def finalAnswerOf (transcript : String) : Option String :=
  (afterPat "Final Answer:".data transcript.data).map
    (fun rest => String.mk (takeUntilChar esc (dropLeadingSpaces rest)))

/-- The stdout transcript of the `agent.run` call in
`docs/getting_started/agents.ipynb`. -/
def gettingStartedTranscript : String :=
  "What is the age of Olivia Wilde\x27s boyfriend raised to the 0.23 power?\n" ++
  "Thought:\x1b[32;1m\x1b[1;3m I need to find the age of Olivia Wilde\x27s boyfriend\n" ++
  "Action: Search\n" ++
  "Action Input: \"Olivia Wilde\x27s boyfriend\"\x1b[0m\n" ++
  "Observation: \x1b[36;1m\x1b[1;3mOlivia Wilde started dating Harry Styles after ending her years-long engagement to Jason Sudeikis — see their relationship timeline.\x1b[0m\n" ++
  "Thought:\x1b[32;1m\x1b[1;3m I need to find the age of Harry Styles\n" ++
  "Action: Search\n" ++
  "Action Input: \"Harry Styles age\"\x1b[0m\n" ++
  "Observation: \x1b[36;1m\x1b[1;3m28 years\x1b[0m\n" ++
  "Thought:\x1b[32;1m\x1b[1;3m I need to calculate 28 to the 0.23 power\n" ++
  "Action: Calculator\n" ++
  "Action Input: 28^0.23\x1b[0m\n" ++
  "\n" ++
  "\x1b[1m> Entering new chain...\x1b[0m\n" ++
  "28^0.23\x1b[32;1m\x1b[1;3m\n" ++
  "\n" ++
  "```python\n" ++
  "print(28**0.23)\n" ++
  "```\n" ++
  "\x1b[0m\n" ++
  "Answer: \x1b[33;1m\x1b[1;3m2.1520202182226886\n" ++
  "\x1b[0m\n" ++
  "\x1b[1m> Finished chain.\x1b[0m\n" ++
  "\n" ++
  "Observation: \x1b[33;1m\x1b[1;3mAnswer: 2.1520202182226886\n" ++
  "\x1b[0m\n" ++
  "Thought:\x1b[32;1m\x1b[1;3m I now know the final answer\n" ++
  "Final Answer: 2.1520202182226886\x1b[0m"

/-- The value `agent.run` returned in that cell. -/
def gettingStartedReturn : String := "2.1520202182226886"

/-- The stdout transcript of the memory notebook's first `agent.run`. -/
def memoryRun1Transcript : String :=
  "\n\n\x1b[1m> Entering new chain...\x1b[0m\n" ++
  "How many people live in canada?\n" ++
  "Thought:\x1b[32;1m\x1b[1;3m I should look up how many people live in canada\n" ++
  "Action: Search\n" ++
  "Action Input: \"How many people live in canada?\"\x1b[0m\n" ++
  "Observation: \x1b[36;1m\x1b[1;3mThe current population of Canada is 38,533,678 as of Friday, November 25, 2022, based on Worldometer elaboration of the latest United Nations data. · Canada 2020 ...\x1b[0m\n" ++
  "Thought:\x1b[32;1m\x1b[1;3m I now know the final answer\n" ++
  "Final Answer: The current population of Canada is 38,533,678 as of Friday, November 25, 2022, based on Worldometer elaboration of the latest United Nations data.\x1b[0m\n" ++
  "\x1b[1m> Finished chain.\x1b[0m\n"

/-- The value the memory notebook's first `agent.run` returned. -/
def memoryRun1Return : String :=
  "The current population of Canada is 38,533,678 as of Friday, November 25, 2022, based on Worldometer elaboration of the latest United Nations data."

/-- The stdout transcript of the memory notebook's follow-up `agent.run`. -/
def memoryRun2Transcript : String :=
  "\n\n\x1b[1m> Entering new chain...\x1b[0m\n" ++
  "what is their national anthem called?\n" ++
  "Thought:\x1b[32;1m\x1b[1;3m\n" ++
  "AI:  I should look up the name of Canada\x27s national anthem\n" ++
  "Action: Search\n" ++
  "Action Input: \"What is the name of Canada\x27s national anthem?\"\x1b[0m\n" ++
  "Observation: \x1b[36;1m\x1b[1;3mAfter 100 years of tradition, O Canada was proclaimed Canada\x27s national anthem in 1980. The music for O Canada was composed in 1880 by Calixa ...\x1b[0m\n" ++
  "Thought:\x1b[32;1m\x1b[1;3m\n" ++
  "AI:  I now know the final answer\n" ++
  "Final Answer: After 100 years of tradition, O Canada was proclaimed Canada\x27s national anthem in 1980. The music for O Canada was composed in 1880 by Calixa Lavallée.\x1b[0m\n" ++
  "\x1b[1m> Finished chain.\x1b[0m\n"

/-- The value the memory notebook's follow-up `agent.run` returned. -/
def memoryRun2Return : String :=
  "After 100 years of tradition, O Canada was proclaimed Canada\x27s national anthem in 1980. The music for O Canada was composed in 1880 by Calixa Lavallée."

/-- The stdout transcript of `agent_without_memory.run` on the first
query. -/
def noMemoryRun1Transcript : String :=
  "\n\n\x1b[1m> Entering new chain...\x1b[0m\n" ++
  "How many people live in canada?\n" ++
  "Thought:\x1b[32;1m\x1b[1;3m I should look up how many people live in canada\n" ++
  "Action: Search\n" ++
  "Action Input: \"How many people live in canada?\"\x1b[0m\n" ++
  "Observation: \x1b[36;1m\x1b[1;3mThe current population of Canada is 38,533,678 as of Friday, November 25, 2022, based on Worldometer elaboration of the latest United Nations data. · Canada 2020 ...\x1b[0m\n" ++
  "Thought:\x1b[32;1m\x1b[1;3m I now know the final answer\n" ++
  "Final Answer: The current population of Canada is 38,533,678\x1b[0m\n" ++
  "\x1b[1m> Finished chain.\x1b[0m\n"

/-- The value `agent_without_memory.run` returned on the first query. -/
def noMemoryRun1Return : String := "The current population of Canada is 38,533,678"

/-- The stdout transcript of `agent_without_memory.run` on the follow-up
query. -/
def noMemoryRun2Transcript : String :=
  "\n\n\x1b[1m> Entering new chain...\x1b[0m\n" ++
  "what is their national anthem called?\n" ++
  "Thought:\x1b[32;1m\x1b[1;3m I should probably look this up\n" ++
  "Action: Search\n" ++
  "Action Input: \"What is the national anthem of [country]\"\x1b[0m\n" ++
  "Observation: \x1b[36;1m\x1b[1;3mMost nation states have an anthem, defined as \"a song, as of praise, devotion, or patriotism\"; most anthems are either marches or hymns in style.\x1b[0m\n" ++
  "Thought:\x1b[32;1m\x1b[1;3m I now know the final answer\n" ++
  "Final Answer: The national anthem is called \"the national anthem.\"\x1b[0m\n" ++
  "\x1b[1m> Finished chain.\x1b[0m\n"

/-- The value `agent_without_memory.run` returned on the follow-up query. -/
def noMemoryRun2Return : String :=
  "The national anthem is called \"the national anthem.\""

/-- The prior turn used to exercise the memory theorems on concrete data. -/
def demoTurn : Turn :=
  ("How many people live in canada?",
   "The current population of Canada is 38,533,678")

/-- The follow-up query used to exercise the memory theorems. -/
def demoQuery : String := "what is their national anthem called?"

/-- An oracle that immediately produces a final answer. -/
def demoFinishOracle : String → String := fun _ => "Final Answer: done"

theorem agentRun_sound (oracle : String → String) (tools : List Tool) :
    ∀ (fuel : Nat) (prompt ans : String),
      (agentRun oracle tools fuel prompt).answer = some ans →
      AgentReaches oracle tools prompt ans := by
  intro fuel
  induction fuel with
  | zero => intro prompt ans h; simp [agentRun] at h
  | succ n ih =>
    intro prompt ans h
    simp only [agentRun] at h
    cases hp : parseOutput (oracle prompt) with
    | none => rw [hp] at h; simp at h
    | some o =>
      cases o with
      | finish a =>
        rw [hp] at h; simp at h
        exact h ▸ AgentReaches.finish hp
      | act toolName input =>
        rw [hp] at h
        simp only at h
        cases hl : lookupTool tools toolName with
        | none => rw [hl] at h; simp at h
        | some t =>
          rw [hl] at h
          simp only at h
          exact AgentReaches.step hp hl (ih _ _ h)

theorem agentReaches_complete (oracle : String → String) (tools : List Tool) :
    ∀ (prompt ans : String),
      AgentReaches oracle tools prompt ans →
      ∃ fuel : Nat, (agentRun oracle tools fuel prompt).answer = some ans := by
  intro prompt ans h
  induction h with
  | finish hp =>
    exact ⟨1, by simp [agentRun, hp]⟩
  | step hp hl _ ih =>
    obtain ⟨fuel, hf⟩ := ih
    exact ⟨fuel + 1, by simp [agentRun, hp, hl, hf]⟩

/-- C1: the agent loop, for every query, proceeds by building a prompt,
obtaining LLM output, parsing it for an Action / Action Input pair,
invoking the named tool, appending the observation to the prompt and
iterating, and it stops with an answer exactly when the LLM output contains
a Final Answer: the fuel-bounded loop `agentRun` returns `ans` for some
iteration bound iff the step relation `AgentReaches` — whose only
terminating rule is a parsed Final Answer and whose only other rule is the
parse-dispatch-append step — derives `ans`. -/
theorem agent_loop_matches_step_relation
    (oracle : String → String) (tools : List Tool) (prompt ans : String) :
    (∃ fuel : Nat, (agentRun oracle tools fuel prompt).answer = some ans) ↔
      AgentReaches oracle tools prompt ans := by
  constructor
  · rintro ⟨fuel, h⟩
    exact agentRun_sound oracle tools fuel prompt ans h
  · exact agentReaches_complete oracle tools prompt ans

/-- Helper: the empty string holds no characters. -/
theorem data_empty : ("" : String).data = [] := rfl

/-- Helper: the first component of a chain-level run is the agent loop run
from the chain's formatted base prompt. -/
theorem chainAgentRun_fst (oracle : String → String) (tools : List Tool)
    (fuel : Nat) (c : LLMChain) (q : String) :
    (chainAgentRun oracle tools fuel c q).1 =
      agentRun oracle tools fuel (basePrompt c q) := by
  cases h : (agentRun oracle tools fuel (basePrompt c q)).answer <;>
    simp [chainAgentRun, h]

/-- Helper: a rendered buffer contains the rendering of each of its turns. -/
theorem renderBuffer_contains (b : List Turn) (t : Turn) (ht : t ∈ b) :
    ∃ u v : List Char, (renderBuffer b).data = u ++ (renderTurn t).data ++ v := by
  induction b with
  | nil => cases ht
  | cons hd rest ih =>
    rcases List.mem_cons.mp ht with h | h
    · subst h
      exact ⟨[], (renderBuffer rest).data, by simp [renderBuffer, String.data_append]⟩
    · obtain ⟨u, v, huv⟩ := ih h
      exact ⟨(renderTurn hd).data ++ u, v,
        by simp [renderBuffer, String.data_append, huv]⟩

/-- Helper: every prompt the loop sends extends the prompt it started from —
the loop only ever appends output and observations on the right. -/
theorem agentRun_prompts_extend (oracle : String → String) (tools : List Tool) :
    ∀ (fuel : Nat) (start p : String),
      p ∈ (agentRun oracle tools fuel start).promptsSent →
      ∃ w : List Char, p.data = start.data ++ w := by
  intro fuel
  induction fuel with
  | zero => intro start p hp; simp [agentRun] at hp
  | succ n ih =>
    intro start p hp
    simp only [agentRun] at hp
    cases hparse : parseOutput (oracle start) with
    | none =>
      rw [hparse] at hp; simp at hp
      exact ⟨[], by simp [hp]⟩
    | some o =>
      cases o with
      | finish a =>
        rw [hparse] at hp; simp at hp
        exact ⟨[], by simp [hp]⟩
      | act toolName input =>
        rw [hparse] at hp
        simp only at hp
        cases hl : lookupTool tools toolName with
        | none =>
          rw [hl] at hp; simp at hp
          exact ⟨[], by simp [hp]⟩
        | some t =>
          rw [hl] at hp
          simp only at hp
          rcases List.mem_cons.mp hp with h | h
          · exact ⟨[], by simp [h]⟩
          · obtain ⟨w, hw⟩ := ih _ _ h
            refine ⟨(oracle start).data ++ "\nObservation: ".data ++
              (t.func input).data ++ "\nThought:".data ++ w, ?_⟩
            rw [hw]
            simp [nextPrompt, String.data_append]

/-- C2: for the memory notebook's agent, whatever turns the attached
`ConversationBufferMemory` holds, every prompt sent to the LLM during a run
contains the rendering of each prior turn, and a completed run appends its
own (query, answer) turn to the buffer — so each later run's prompts carry
all earlier turns. -/
theorem memory_prompts_contain_prior_turns
    (searchRun oracle : String → String) (fuel : Nat) (b : List Turn)
    (q : String) (t : Turn) (ht : t ∈ b) :
    (∀ p ∈ (chainAgentRun oracle (memoryNotebookTools searchRun) fuel
        (memoryChainWith searchRun b) q).1.promptsSent,
      ∃ u v : List Char, p.data = u ++ (renderTurn t).data ++ v) ∧
    (∀ a, (chainAgentRun oracle (memoryNotebookTools searchRun) fuel
        (memoryChainWith searchRun b) q).1.answer = some a →
      (chainAgentRun oracle (memoryNotebookTools searchRun) fuel
        (memoryChainWith searchRun b) q).2 =
        memoryChainWith searchRun (b ++ [(q, a)])) := by
  constructor
  · intro p hp
    rw [chainAgentRun_fst] at hp
    obtain ⟨w, hw⟩ := agentRun_prompts_extend _ _ fuel _ p hp
    obtain ⟨u, v, huv⟩ := renderBuffer_contains b t ht
    refine ⟨memLitA.data ++ u,
      v ++ ("\nQuestion: ".data ++ q.data) ++ w, ?_⟩
    rw [hw]
    have hbase : basePrompt (memoryChainWith searchRun b) q =
        memLitA ++ (renderBuffer b ++ ("\nQuestion: " ++ (q ++ ""))) := rfl
    rw [hbase]
    simp [String.data_append, data_empty, huv]
  · intro a ha
    rw [chainAgentRun_fst] at ha
    have hsave : saveContext (memoryChainWith searchRun b) q a =
        memoryChainWith searchRun (b ++ [(q, a)]) := rfl
    simp [chainAgentRun, ha, hsave]

/-- Helper: a run through a chain with no memory attached leaves the chain
unchanged. -/
theorem chainAgentRun_snd_no_memory (oracle : String → String)
    (tools : List Tool) (fuel : Nat) (c : LLMChain) (q : String)
    (h : c.memory = none) :
    (chainAgentRun oracle tools fuel c q).2 = c := by
  cases ha : (agentRun oracle tools fuel (basePrompt c q)).answer <;>
    simp [chainAgentRun, ha, saveContext, h]

/-- C9: for the memory notebook's agent without a memory object, the result
of a run is independent of all earlier calls: appending a query after any
conversation history gives exactly the result (answer, tools used and every
prompt sent) of running that query on the freshly constructed chain, so no
prior turn reaches a later prompt and repeated runs of one query coincide. -/
theorem no_memory_runs_are_independent
    (searchRun oracle : String → String) (fuel : Nat)
    (qs : List String) (q : String) :
    runQueries oracle (memoryNotebookTools searchRun) fuel
        (noMemoryChain searchRun) (qs ++ [q]) =
      runQueries oracle (memoryNotebookTools searchRun) fuel
          (noMemoryChain searchRun) qs ++
        [(chainAgentRun oracle (memoryNotebookTools searchRun) fuel
            (noMemoryChain searchRun) q).1] := by
  have key : ∀ (rest : List String) (c : LLMChain), c.memory = none →
      runQueries oracle (memoryNotebookTools searchRun) fuel c (rest ++ [q]) =
        runQueries oracle (memoryNotebookTools searchRun) fuel c rest ++
          [(chainAgentRun oracle (memoryNotebookTools searchRun) fuel c q).1] := by
    intro rest
    induction rest with
    | nil => intro c hc; simp [runQueries]
    | cons x xs ih =>
      intro c hc
      have h2 := chainAgentRun_snd_no_memory oracle (memoryNotebookTools searchRun)
        fuel c x hc
      simp only [List.cons_append, runQueries, h2, List.append_eq]
      rw [ih c hc]
  exact key qs (noMemoryChain searchRun) rfl

/-- C8: in the memory notebook, the conversation-history variable of the
prompt template is exactly the `memory_key` of the attached
`ConversationBufferMemory` (`chat_history`), and that variable is listed
among the prompt's `input_variables`. -/
theorem chat_history_matches_memory_key (searchRun : String → String)
    (b : List Turn) :
    memoryNB.memory_key ∈ templateVars (memoryChainWith searchRun b).template ∧
    (memoryChainWith searchRun b).memory =
      some { memory_key := memoryNB.memory_key, buffer := b } ∧
    memoryNB.memory_key ∈ memoryInputVariables := by
  refine ⟨?_, rfl, by simp [memoryInputVariables, memoryNB]⟩
  have h : templateVars (memoryChainWith searchRun b).template =
      ["chat_history", "input"] := rfl
  rw [h]
  simp [memoryNB]

/-- C5: every tool the agent loop invokes during a run is named in the tool
list fixed at construction — no Action can reach a name outside that list. -/
theorem actions_name_supplied_tools (oracle : String → String)
    (tools : List Tool) (fuel : Nat) (prompt toolName : String)
    (h : toolName ∈ (agentRun oracle tools fuel prompt).toolsUsed) :
    toolName ∈ tools.map Tool.name := by
  induction fuel generalizing prompt with
  | zero => simp [agentRun] at h
  | succ n ih =>
    simp only [agentRun] at h
    cases hparse : parseOutput (oracle prompt) with
    | none => rw [hparse] at h; simp at h
    | some o =>
      cases o with
      | finish a => rw [hparse] at h; simp at h
      | act actName input =>
        rw [hparse] at h
        simp only at h
        cases hl : lookupTool tools actName with
        | none => rw [hl] at h; simp at h
        | some t =>
          rw [hl] at h
          simp only at h
          rcases List.mem_cons.mp h with heq | hmem
          · subst heq
            have hl' : tools.find? (fun tl => tl.name == toolName) = some t := hl
            have hmem' : t ∈ tools := List.mem_of_find?_eq_some hl'
            have hname := List.find?_some hl'
            have heq' : t.name = toolName := by simpa using hname
            exact heq' ▸ List.mem_map_of_mem Tool.name hmem'
          · exact ih _ hmem

theorem actions_name_supplied_tools_witness :
    "Search" ∈ demoTools.map Tool.name :=
  actions_name_supplied_tools demoOracle demoTools 2 "Q" "Search" (by
    have h : (agentRun demoOracle demoTools 2 "Q").toolsUsed = ["Search"] := rfl
    rw [h]
    exact List.mem_cons_self _ _)

/-- C4: every tool exposed to the getting-started agent has a text-in /
text-out signature: applying its `func` field to any string yields a
string. -/
theorem tools_text_in_text_out (searchRun calcRun : String → String)
    (t : Tool) (_ht : t ∈ gettingStartedTools searchRun calcRun) (q : String) :
    ∃ output : String, t.func q = output :=
  ⟨t.func q, rfl⟩

theorem tools_text_in_text_out_witness :
    ∃ output : String,
      (Tool.mk "Search" id (some searchDesc)).func "2+2" = output :=
  tools_text_in_text_out id id (Tool.mk "Search" id (some searchDesc))
    (by simp [gettingStartedTools]) "2+2"

/-- C3: a `Tool` is a record of exactly its three declared fields — two
tools agreeing on name, callable and description are equal — and a tool
built from only the required name and callable gets the default
`description = none`. -/
theorem tool_record_shape :
    (∀ (n : String) (f : String → String),
      ({ name := n, func := f } : Tool).description = none) ∧
    (∀ t₁ t₂ : Tool, t₁.name = t₂.name → t₁.func = t₂.func →
      t₁.description = t₂.description → t₁ = t₂) := by
  refine ⟨fun n f => rfl, ?_⟩
  intro t₁ t₂ h1 h2 h3
  cases t₁
  cases t₂
  simp_all

/-- C6: for each completed `agent.run` call recorded in the notebooks, the
string the call returned is exactly the text that follows `Final Answer:`
in that run's transcript. -/
theorem run_returns_final_answer_text :
    finalAnswerOf gettingStartedTranscript = some gettingStartedReturn ∧
    finalAnswerOf memoryRun1Transcript = some memoryRun1Return ∧
    finalAnswerOf memoryRun2Transcript = some memoryRun2Return ∧
    finalAnswerOf noMemoryRun1Transcript = some noMemoryRun1Return ∧
    finalAnswerOf noMemoryRun2Transcript = some noMemoryRun2Return :=
  ⟨rfl, rfl, rfl, rfl, rfl⟩

/-- C7: the transcripts are snapshots of nondeterministic LLM output — the
run's result is a function of the LLM oracle, and two oracles can return
different text for the very same query through the very same agent, so the
recorded transcripts are illustrative rather than reproducible. -/
theorem transcripts_vary_with_llm :
    ∃ (oracleA oracleB : String → String) (q : String),
      (chainAgentRun oracleA (memoryNotebookTools id) 1
          (noMemoryChain id) q).1.answer ≠
        (chainAgentRun oracleB (memoryNotebookTools id) 1
            (noMemoryChain id) q).1.answer :=
  ⟨fun _ => "Final Answer: yes", fun _ => "Final Answer: no",
    "How many people live in canada?", by decide⟩

theorem memory_prompts_contain_prior_turns_witness :
    (∀ p ∈ (chainAgentRun demoFinishOracle (memoryNotebookTools id) 1
        (memoryChainWith id [demoTurn]) demoQuery).1.promptsSent,
      ∃ u v : List Char, p.data = u ++ (renderTurn demoTurn).data ++ v) ∧
    (∀ a, (chainAgentRun demoFinishOracle (memoryNotebookTools id) 1
        (memoryChainWith id [demoTurn]) demoQuery).1.answer = some a →
      (chainAgentRun demoFinishOracle (memoryNotebookTools id) 1
        (memoryChainWith id [demoTurn]) demoQuery).2 =
        memoryChainWith id ([demoTurn] ++ [(demoQuery, a)])) :=
  memory_prompts_contain_prior_turns id demoFinishOracle 1 [demoTurn] demoQuery
    demoTurn (List.mem_cons_self _ _)
